import Mathlib

/-!
Verification of the LoRa gateway bridge (`lora_con.py`).

Python strings are modelled as `List Char` (one entry per code point,
`ord c = c.toNat`), bytes as `List Nat` (each < 256).  Side effects
(serial writes, sleeps, log records, HTTP posts) are modelled as an
explicit effect trace, and the serial line / HTTP endpoint as oracle
scripts threaded through a world state.
-/

set_option maxHeartbeats 1000000
set_option maxRecDepth 8192

namespace CPFGateway

/-- Convert a Lean string literal to the `List Char` model of a Python `str`. -/
def pys (s : String) : List Char := s.data

/-- Python `str.isspace` characters relevant to `split`/`strip`
(ASCII whitespace: space, tab, newline, carriage return, vertical tab, form feed). -/
def pyIsSpace (c : Char) : Bool :=
  c = ' ' || c = '\t' || c = '\n' || c = '\r' || c = '\x0b' || c = '\x0c'

/-- Python `str.strip()`: drop leading and trailing whitespace. -/
def pyStrip (s : List Char) : List Char :=
  ((s.dropWhile pyIsSpace).reverse.dropWhile pyIsSpace).reverse

/-- Accumulator-based worker for `pySplit`. -/
def pySplitAux : List Char → List Char → List (List Char)
  | [], acc => if acc.isEmpty then [] else [acc.reverse]
  | c :: t, acc =>
    if pyIsSpace c then
      if acc.isEmpty then pySplitAux t [] else acc.reverse :: pySplitAux t []
    else
      pySplitAux t (c :: acc)

/-- Python `str.split()` with no arguments: split on runs of whitespace,
discarding empty pieces. -/
def pySplit (s : List Char) : List (List Char) := pySplitAux s []

/-- Python `str.lower()` (ASCII case folding, which is all the source compares). -/
def pyLower (s : List Char) : List Char := s.map Char.toLower

/-- Python `str.startswith(p)`. -/
def pyStartswith (s p : List Char) : Bool := s.take p.length == p

/-- Is `c` an ASCII hexadecimal digit? -/
def isHexDig (c : Char) : Bool :=
  let n := c.toNat
  (48 ≤ n && n ≤ 57) || (97 ≤ n && n ≤ 102) || (65 ≤ n && n ≤ 70)

/-- Numeric value of a hexadecimal digit character. -/
def hexVal (c : Char) : Nat :=
  let n := c.toNat
  if 48 ≤ n ∧ n ≤ 57 then n - 48
  else if 97 ≤ n ∧ n ≤ 102 then n - 87
  else if 65 ≤ n ∧ n ≤ 70 then n - 55
  else 0

/-- Uppercase hexadecimal digit character for a value `n < 16`. -/
def hexDig (n : Nat) : Char :=
  if n < 10 then Char.ofNat (48 + n) else Char.ofNat (55 + n)

/-- Most-significant-first uppercase hexadecimal digits of `n`; the first
argument is recursion fuel (any fuel ≥ n computes the digits of `n`). -/
def hexDigitsAux : Nat → Nat → List Char → List Char
  | 0, n, acc => hexDig (n % 16) :: acc
  | fuel + 1, n, acc =>
    if n < 16 then hexDig n :: acc
    else hexDigitsAux fuel (n / 16) (hexDig (n % 16) :: acc)

/-- Python `format(n, '02X')`: uppercase hexadecimal, zero-padded to width 2. -/
def format02X (n : Nat) : List Char :=
  let ds := hexDigitsAux n n []
  List.replicate (2 - ds.length) '0' ++ ds

/-- `string_to_hex` from `lora_con.py`:
`''.join(format(ord(c), '02X') for c in input_str)`. -/
def string_to_hex (s : List Char) : List Char :=
  (s.map (fun c => format02X c.toNat)).flatten

/-- Python `bytes.fromhex`: pairs of hexadecimal digits, with spaces allowed
between pairs; `none` models the `ValueError` raised on malformed input. -/
def bytesFromHex : List Char → Option (List Nat)
  | [] => some []
  | c1 :: t1 =>
    if c1 = ' ' then bytesFromHex t1
    else
      match t1 with
      | c2 :: t =>
        if isHexDig c1 && isHexDig c2 then
          (bytesFromHex t).map (fun bs => (hexVal c1 * 16 + hexVal c2) :: bs)
        else
          none
      | [] => none

/-- Is `b` a UTF-8 continuation byte (`0x80..0xBF`)? -/
def utf8Cont (b : Nat) : Bool := 0x80 ≤ b && b ≤ 0xBF

/-- Valid second byte for a three-byte sequence led by `b1`
(excluding overlong encodings and surrogates, as CPython does). -/
def utf8Valid3 (b1 b2 : Nat) : Bool :=
  if b1 = 0xE0 then 0xA0 ≤ b2 && b2 ≤ 0xBF
  else if b1 = 0xED then 0x80 ≤ b2 && b2 ≤ 0x9F
  else utf8Cont b2

/-- Valid second byte for a four-byte sequence led by `b1`
(excluding overlong encodings and code points beyond U+10FFFF). -/
def utf8Valid4 (b1 b2 : Nat) : Bool :=
  if b1 = 0xF0 then 0x90 ≤ b2 && b2 ≤ 0xBF
  else if b1 = 0xF4 then 0x80 ≤ b2 && b2 ≤ 0x8F
  else utf8Cont b2

/-- Worker for `utf8DecodeIgnore`; the fuel (first argument) makes the
recursion structural, and any fuel ≥ the list length computes the decode
(every step consumes at least one byte and one unit of fuel). -/
def utf8DecodeIgnoreAux : Nat → List Nat → List Nat
  | 0, _ => []
  | _ + 1, [] => []
  | fuel + 1, b1 :: t =>
    if b1 < 0x80 then
      b1 :: utf8DecodeIgnoreAux fuel t
    else if 0xC2 ≤ b1 ∧ b1 ≤ 0xDF then
      match t with
      | b2 :: t2 =>
        if utf8Cont b2 then ((b1 - 0xC0) * 64 + (b2 - 0x80)) :: utf8DecodeIgnoreAux fuel t2
        else utf8DecodeIgnoreAux fuel t
      | [] => []
    else if 0xE0 ≤ b1 ∧ b1 ≤ 0xEF then
      match t with
      | b2 :: b3 :: t3 =>
        if utf8Valid3 b1 b2 && utf8Cont b3 then
          ((b1 - 0xE0) * 4096 + (b2 - 0x80) * 64 + (b3 - 0x80)) :: utf8DecodeIgnoreAux fuel t3
        else utf8DecodeIgnoreAux fuel t
      | _ => utf8DecodeIgnoreAux fuel t
    else if 0xF0 ≤ b1 ∧ b1 ≤ 0xF4 then
      match t with
      | b2 :: b3 :: b4 :: t4 =>
        if utf8Valid4 b1 b2 && utf8Cont b3 && utf8Cont b4 then
          ((b1 - 0xF0) * 262144 + (b2 - 0x80) * 4096 + (b3 - 0x80) * 64 + (b4 - 0x80))
            :: utf8DecodeIgnoreAux fuel t4
        else utf8DecodeIgnoreAux fuel t
      | _ => utf8DecodeIgnoreAux fuel t
    else
      utf8DecodeIgnoreAux fuel t

/-- Python `bytes.decode('utf-8', errors='ignore')`: decode UTF-8, skipping
bytes that do not start a valid sequence.  Returns code points. -/
def utf8DecodeIgnore (l : List Nat) : List Nat := utf8DecodeIgnoreAux l.length l

/-- `hex_to_string` from `lora_con.py`: `bytes.fromhex` then a permissive
UTF-8 decode.  The second component records whether the `ValueError` branch
ran (it logs an "Invalid hex string" error and returns the empty string). -/
def hex_to_string (h : List Char) : List Char × Bool :=
  match bytesFromHex h with
  | some bs => ((utf8DecodeIgnore bs).map Char.ofNat, false)
  | none => ([], true)

/-! ## JSON values and `json.loads`

The source calls the standard `json` module; its strict-mode grammar is
modelled here.  Numbers are carried exactly as rationals (no arithmetic is
ever performed on them, so the representation does not affect behaviour). -/

/-- A JSON value as produced by `json.loads`. -/
inductive Json where
  | null : Json
  | bool (b : Bool) : Json
  | num (q : Rat) : Json
  | str (s : List Char) : Json
  | arr (xs : List Json) : Json
  | obj (fields : List (List Char × Json)) : Json

/-- Is the value a JSON object (a Python `dict` after `json.loads`)? -/
def Json.isObj : Json → Bool
  | .obj _ => true
  | _ => false

/-- JSON structural whitespace (space, tab, newline, carriage return). -/
def jsonWs (c : Char) : Bool := c = ' ' || c = '\t' || c = '\n' || c = '\r'

/-- Skip JSON whitespace. -/
def skipJsonWs (s : List Char) : List Char := s.dropWhile jsonWs

/-- Combine the pieces of a JSON number literal into an exact rational:
`sign * digits(int ++ frac) * 10 ^ (exp - frac.length)`. -/
def jsonNumVal (neg : Bool) (intPart fracPart : List Char) (exp10 : Int) : Rat :=
  let mag : Nat := (intPart ++ fracPart).foldl (fun a c => a * 10 + (c.toNat - 48)) 0
  let m : Int := if neg then -(mag : Int) else (mag : Int)
  let e : Int := exp10 - (fracPart.length : Int)
  if 0 ≤ e then ((m * (10 : Int) ^ e.toNat : Int) : Rat)
  else mkRat m ((10 : Nat) ^ (-e).toNat)

/-- Is `c` an ASCII decimal digit? -/
def isDigitCh (c : Char) : Bool := 48 ≤ c.toNat && c.toNat ≤ 57

/-- Parse one or more decimal digits; returns the digits and the rest. -/
def parseDigits (s : List Char) : Option (List Char × List Char) :=
  let ds := s.takeWhile isDigitCh
  if ds.isEmpty then none else some (ds, s.drop ds.length)

/-- Parse the integer part of a JSON number: `0` or a nonzero digit followed
by digits (strict grammar: no leading zeros). -/
def parseIntPart (s : List Char) : Option (List Char × List Char) :=
  match s with
  | '0' :: t => some (['0'], t)
  | c :: _ =>
    if isDigitCh c then parseDigits s else none
  | [] => none

/-- Parse the optional fraction part `.digits`; returns the digits ([] if absent). -/
def parseFracPart (s : List Char) : Option (List Char × List Char) :=
  match s with
  | '.' :: t =>
    match parseDigits t with
    | some (ds, r) => some (ds, r)
    | none => none
  | _ => some ([], s)

/-- Parse the optional exponent part `(e|E)(+|-)?digits`; returns its value. -/
def parseExpPart (s : List Char) : Option (Int × List Char) :=
  match s with
  | c :: t =>
    if c = 'e' || c = 'E' then
      let (neg, t2) : Bool × List Char :=
        match t with
        | '+' :: u => (false, u)
        | '-' :: u => (true, u)
        | _ => (false, t)
      match parseDigits t2 with
      | some (ds, r) =>
        let v : Nat := ds.foldl (fun a d => a * 10 + (d.toNat - 48)) 0
        some (if neg then -(v : Int) else (v : Int), r)
      | none => none
    else some (0, s)
  | [] => some (0, s)

/-- Parse a JSON number starting at `s` (strict `json` grammar). -/
def parseNumber (s : List Char) : Option (Json × List Char) :=
  let (neg, s1) : Bool × List Char :=
    match s with
    | '-' :: t => (true, t)
    | _ => (false, s)
  match parseIntPart s1 with
  | none => none
  | some (ip, s2) =>
    match parseFracPart s2 with
    | none => none
    | some (fp, s3) =>
      match parseExpPart s3 with
      | none => none
      | some (e, s4) => some (.num (jsonNumVal neg ip fp e), s4)

/-- Value of four hexadecimal digits (for `\u` escapes). -/
def hex4Val (a b c d : Char) : Nat :=
  ((hexVal a * 16 + hexVal b) * 16 + hexVal c) * 16 + hexVal d

/-- The character denoted by a single-character escape `\e`, if `e` is one. -/
def jsonEscChar (e : Char) : Option Char :=
  if e = '"' then some '"'
  else if e = '\\' then some '\\'
  else if e = '/' then some '/'
  else if e = 'b' then some '\x08'
  else if e = 'f' then some '\x0c'
  else if e = 'n' then some '\n'
  else if e = 'r' then some '\r'
  else if e = 't' then some '\t'
  else none

/-- Parse the remainder of a JSON string literal (after the opening quote).
Rejects unescaped control characters, as the `json` module's strict mode does.
A `\u` escape denoting a surrogate is kept as its raw code point value. -/
def parseStringRest : List Char → Option (List Char × List Char)
  | [] => none
  | '"' :: t => some ([], t)
  | '\\' :: e :: t =>
    if e = 'u' then
      match t with
      | a :: b :: c :: d :: t4 =>
        if isHexDig a && isHexDig b && isHexDig c && isHexDig d then
          (parseStringRest t4).map (fun p => (Char.ofNat (hex4Val a b c d) :: p.1, p.2))
        else none
      | _ => none
    else
      match jsonEscChar e with
      | some c => (parseStringRest t).map (fun p => (c :: p.1, p.2))
      | none => none
  | c :: t =>
    if c.toNat < 0x20 then none
    else (parseStringRest t).map (fun p => (c :: p.1, p.2))

mutual

/-- Parse a JSON value; `parseElems`/`parseMembers` parse the element lists of
arrays and objects after the first element.  The fuel makes the mutual
recursion structural; `json_loads` supplies more fuel than any input needs. -/
def parseValue : Nat → List Char → Option (Json × List Char)
  | 0, _ => none
  | fuel + 1, s =>
    match skipJsonWs s with
    | 'n' :: 'u' :: 'l' :: 'l' :: t => some (.null, t)
    | 't' :: 'r' :: 'u' :: 'e' :: t => some (.bool true, t)
    | 'f' :: 'a' :: 'l' :: 's' :: 'e' :: t => some (.bool false, t)
    | '"' :: t =>
      match parseStringRest t with
      | some (cs, r) => some (.str cs, r)
      | none => none
    | '[' :: t =>
      match skipJsonWs t with
      | ']' :: r => some (.arr [], r)
      | _ =>
        match parseValue fuel t with
        | some (v, r) => parseElems fuel [v] r
        | none => none
    | '{' :: t =>
      match skipJsonWs t with
      | '}' :: r => some (.obj [], r)
      | _ => parseMembers fuel [] t
    | s' => parseNumber s'

/-- Parse `(',' value)* ']'` after the elements in `acc` (reversed). -/
def parseElems : Nat → List Json → List Char → Option (Json × List Char)
  | 0, _, _ => none
  | fuel + 1, acc, s =>
    match skipJsonWs s with
    | ',' :: t =>
      match parseValue fuel t with
      | some (v, r) => parseElems fuel (v :: acc) r
      | none => none
    | ']' :: r => some (.arr acc.reverse, r)
    | _ => none

/-- Parse `ws string ws ':' value (',' ...)* '}'` members of an object,
with the members parsed so far in `acc` (reversed). -/
def parseMembers : Nat → List (List Char × Json) → List Char → Option (Json × List Char)
  | 0, _, _ => none
  | fuel + 1, acc, s =>
    match skipJsonWs s with
    | '"' :: t =>
      match parseStringRest t with
      | none => none
      | some (k, r1) =>
        match skipJsonWs r1 with
        | ':' :: r2 =>
          match parseValue fuel r2 with
          | none => none
          | some (v, r3) =>
            match skipJsonWs r3 with
            | ',' :: r4 => parseMembers fuel ((k, v) :: acc) r4
            | '}' :: r4 => some (.obj ((k, v) :: acc).reverse, r4)
            | _ => none
        | _ => none
    | _ => none

end

/-- `json.loads`: parse a complete JSON document; `none` models the
`JSONDecodeError` raised on invalid input. -/
def json_loads (s : List Char) : Option Json :=
  match parseValue (4 * (s.length + 1)) s with
  | some (v, r) => if (skipJsonWs r).isEmpty then some v else none
  | none => none

/-- Python `dict.get(k, d)` on the dict built by `json.loads` from `fields`
(later duplicate keys overwrite earlier ones). -/
def jsonGetD (fields : List (List Char × Json)) (k : List Char) (d : Json) : Json :=
  match fields.reverse.find? (fun p => p.1 == k) with
  | some p => p.2
  | none => d

/-! ## Configuration constants (`class Config` in `lora_con.py`) -/

def LORA_RESET_COMMAND : List Char := pys "sys reset"
def LORA_MAC_PAUSE_COMMAND : List Char := pys "mac pause"
def LORA_RADIO_BW_COMMAND : List Char := pys "radio set bw 125"
def LORA_RADIO_CR_COMMAND : List Char := pys "radio set cr 4/5"
def LORA_RADIO_PWR_COMMAND : List Char := pys "radio set pwr 20"
def LORA_RADIO_FREQ_COMMAND : List Char := pys "radio set freq 910000000"
def LORA_RADIO_SF_COMMAND : List Char := pys "radio set sf sf7"
def LORA_RADIO_RX_COMMAND : List Char := pys "radio rx 0"
def COMMAND_RETRIES : Nat := 3
def SENSOR_ID : Nat := 123
def GATEWAY_ID : List Char := pys "GATEWAY001"

/-! ## Effects, oracles and world state

Side effects are recorded in an explicit trace.  The serial line and the
HTTP endpoint are oracles: scripts of outcomes consumed in order. -/

/-- The dict POSTed by `process_received_message`
(`{"sensor_id": ..., "gateway_id": ..., "data_kwh": ...}`). -/
structure UploadPayload where
  sensor_id : Nat
  gateway_id : List Char
  data_kwh : Json

/-- Identifies the `logger.<level>` call sites of `lora_con.py`. -/
inductive LogTag where
  | serialNotOpen      -- "Serial connection is not open."
  | sentCommand        -- "Sent command: ..."
  | receivedResponse   -- "Received response: ..."
  | serialExc          -- "Serial exception during send_command: ..."
  | unicodeExc         -- "Unicode decode error: ..."
  | cmdAck             -- "Command ... acknowledged on attempt ..."
  | attemptFailed      -- "Attempt ... failed for command ..."
  | allAttemptsFailed  -- "All ... attempts failed for command ..."
  | resetting          -- "Resetting LoRa module..."
  | pausingMac         -- "Pausing MAC operations..."
  | settingFreq        -- "Setting frequency to 910 MHz..."
  | freqOk             -- "Frequency set successfully."
  | freqFailed         -- "Failed to set frequency."
  | settingSf          -- "Setting spreading factor to SF7..."
  | sfOk               -- "Spreading factor set successfully."
  | sfFailed           -- "Failed to set spreading factor."
  | settingRx          -- "Putting LoRa module into receive mode..."
  | rxOk               -- "LoRa module is now in receive mode."
  | rxFailed           -- "Failed to set receive mode."
  | errorConfiguring   -- "Error configuring gateway: ..."
  | postSuccess        -- "POST request successful. Response: ..."
  | postNonJsonBody    -- "POST request successful but failed to decode JSON response."
  | postFailedStatus   -- "Failed to send POST request. Status code: ..."
  | postException      -- "Exception occurred during POST request: ..."
  | invalidHex         -- "Invalid hex string encountered: ..."
  | receivedPacket     -- "Received Packet: ..."
  | parsedJsonHeader   -- "Parsed JSON Data:"
  | jsonItem           -- "  key: value"
  | jsonDecodeFailed   -- "Failed to decode JSON from message: ..."
  | badRadioRxFormat   -- "Unexpected radio_rx format: ..."
  | receiveError       -- "Receive Error: ..."
  | reconfiguring      -- "Attempting to reset and reconfigure LoRa module..."
  | ackMessage         -- "Received acknowledgment: ..."
  | unexpectedResponse -- "Unexpected response: ..."
  | rawMessage         -- "Raw Message Received: ..."
  | reissueFailed      -- "Failed to re-issue receive command."
  | stopping           -- "Stopping receiver..."
  | listenError        -- "Error while listening: ..."
deriving DecidableEq

/-- One observable effect.  `sendCmd c` records an invocation of
`send_command c` (the serial write); `silentSwallow` records the bare
`except Exception: pass` handler firing without emitting any log. -/
inductive Eff where
  | sendCmd (c : List Char)
  | sleptSettle  -- time.sleep(0.1) inside send_command
  | sleptRetry   -- time.sleep(COMMAND_RETRY_DELAY) between retries
  | sleptCfg     -- the fixed waits after reset / mac pause
  | sleptPoll    -- time.sleep(0.1) at the end of a listen iteration
  | logDebug (t : LogTag)
  | logInfo (t : LogTag)
  | logWarning (t : LogTag)
  | logError (t : LogTag)
  | posted (p : UploadPayload)
  | silentSwallow

/-- Outcome of one `serial` exchange: a line read back (`readline`), a
`SerialException`, or a `UnicodeDecodeError` while decoding the response. -/
inductive SerialResp where
  | line (s : List Char)
  | serialErr
  | unicodeErr

/-- Outcome of one `requests.post` call: a response with a status code and
whether its body parses as JSON, or a `requests.RequestException`. -/
inductive HttpOutcome where
  | resp (status : Nat) (bodyIsJson : Bool)
  | reqError

/-- World state threaded through the embedding: whether the serial port is
open, and the remaining serial / HTTP oracle scripts. -/
structure W where
  ser_open : Bool
  chan : List SerialResp
  http : List HttpOutcome

/-- Result of a stateful operation: value, new world, effect trace. -/
structure Step (α : Type) where
  val : α
  w : W
  fx : List Eff

/-- Python exception kinds that the source raises or catches. -/
inductive PyExc where
  | jsonDecodeError
  | attributeError
  | valueError
  | generic
deriving DecidableEq

/-! ## Trace observations used by the claims -/

/-- The commands passed to `send_command`, in order. -/
def cmdsOf (fx : List Eff) : List (List Char) :=
  fx.filterMap fun e => match e with | .sendCmd c => some c | _ => none

/-- Number of `send_command` invocations in a trace. -/
def sendCount (fx : List Eff) : Nat := (cmdsOf fx).length

/-- Number of inter-retry waits (`time.sleep(COMMAND_RETRY_DELAY)`) in a trace. -/
def retrySleepCount (fx : List Eff) : Nat :=
  fx.countP fun e => match e with | .sleptRetry => true | _ => false

/-- The payloads handed to `requests.post`, in order. -/
def postsOf (fx : List Eff) : List UploadPayload :=
  fx.filterMap fun e => match e with | .posted p => some p | _ => none

/-- The tags of error-level log records in a trace. -/
def errorTags (fx : List Eff) : List LogTag :=
  fx.filterMap fun e => match e with | .logError t => some t | _ => none

/-- Does the trace contain a silently-swallowed exception? -/
def hasSwallow (fx : List Eff) : Bool :=
  fx.any fun e => match e with | .silentSwallow => true | _ => false

/-- The response `send_command` would return for the `i`-th consumed oracle
entry of `w` (an exhausted script models read timeouts: empty line). -/
def respAt (w : W) (i : Nat) : List Char :=
  match (w.chan.drop i).headD (.line []) with
  | .line s => pyStrip s
  | _ => []

/-! ## CommandChannel -/

/-- Consume one serial oracle entry (an exhausted script models timeouts:
`readline` returns an empty line). -/
def takeSerial (w : W) : SerialResp × W :=
  match w.chan with
  | [] => (.line [], w)
  | r :: t => (r, { w with chan := t })

/-- `LoRaManager.send_command`: guard on the port being open, write the
command, settle, read and strip one response line; serial and decode
exceptions are caught and yield the empty response. -/
def send_command (cmd : List Char) (w : W) : Step (List Char) :=
  if w.ser_open then
    let (r, w1) := takeSerial w
    match r with
    | .line s =>
      ⟨pyStrip s, w1, [.sendCmd cmd, .logDebug .sentCommand, .sleptSettle, .logDebug .receivedResponse]⟩
    | .serialErr =>
      ⟨[], w1, [.sendCmd cmd, .logDebug .sentCommand, .sleptSettle, .logError .serialExc]⟩
    | .unicodeErr =>
      ⟨[], w1, [.sendCmd cmd, .logDebug .sentCommand, .sleptSettle, .logError .unicodeExc]⟩
  else
    ⟨[], w, [.sendCmd cmd, .logError .serialNotOpen]⟩

/-- The retry loop of `send_command_with_retry`, counting down the remaining
attempts (the source iterates `attempt in range(1, COMMAND_RETRIES + 1)`). -/
def swrAux (cmd : List Char) : Nat → W → Step Bool
  | 0, w => ⟨false, w, [.logError .allAttemptsFailed]⟩
  | n + 1, w =>
    let s := send_command cmd w
    if pyLower s.val == pys "ok" then
      ⟨true, s.w, s.fx ++ [.logDebug .cmdAck]⟩
    else
      let r := swrAux cmd n s.w
      ⟨r.val, r.w, s.fx ++ [.logWarning .attemptFailed, .sleptRetry] ++ r.fx⟩

/-- `LoRaManager.send_command_with_retry`: up to `COMMAND_RETRIES` attempts,
acknowledged iff some response case-insensitively equals `"ok"`. -/
def send_command_with_retry (cmd : List Char) (w : W) : Step Bool :=
  swrAux cmd COMMAND_RETRIES w

/-! ## RadioConfigurator -/

/-- Result of `configure_gateway`; `raised` is the exception escaping to the
caller (the method has no return value). -/
structure CfgResult where
  w : W
  fx : List Eff
  raised : Option PyExc

/-- The `try` block of `configure_gateway`: reset and MAC-pause fire and
forget, then the three prerequisite commands with retries (`raise` aborts on
failure, modelled by `Except.error`), then frequency, spreading factor and
receive mode with retries (failures only logged). -/
def configure_gateway_try (w : W) : Except (W × List Eff) (W × List Eff) :=
  let s1 := send_command LORA_RESET_COMMAND w
  let s2 := send_command LORA_MAC_PAUSE_COMMAND s1.w
  let pre := [Eff.logInfo .resetting] ++ s1.fx ++ [Eff.sleptCfg, Eff.logInfo .pausingMac]
    ++ s2.fx ++ [Eff.sleptCfg]
  let b := send_command_with_retry LORA_RADIO_BW_COMMAND s2.w
  if b.val = false then .error (b.w, pre ++ b.fx)
  else
    let c := send_command_with_retry LORA_RADIO_CR_COMMAND b.w
    if c.val = false then .error (c.w, pre ++ b.fx ++ c.fx)
    else
      let p := send_command_with_retry LORA_RADIO_PWR_COMMAND c.w
      if p.val = false then .error (p.w, pre ++ b.fx ++ c.fx ++ p.fx)
      else
        let f := send_command_with_retry LORA_RADIO_FREQ_COMMAND p.w
        let ffx := [Eff.logInfo .settingFreq] ++ f.fx
          ++ [if f.val then Eff.logInfo .freqOk else Eff.logError .freqFailed]
        let g := send_command_with_retry LORA_RADIO_SF_COMMAND f.w
        let gfx := [Eff.logInfo .settingSf] ++ g.fx
          ++ [if g.val then Eff.logInfo .sfOk else Eff.logError .sfFailed]
        let r := send_command_with_retry LORA_RADIO_RX_COMMAND g.w
        let rfx := [Eff.logInfo .settingRx] ++ r.fx
          ++ [if r.val then Eff.logInfo .rxOk else Eff.logError .rxFailed]
        .ok (r.w, pre ++ b.fx ++ c.fx ++ p.fx ++ ffx ++ gfx ++ rfx)

/-- `LoRaManager.configure_gateway`: the `try` block above wrapped in
`except Exception as e: logger.error(...)` — every raise is caught and
logged, and the method returns `None` to its caller in all cases. -/
def configure_gateway (w : W) : CfgResult :=
  match configure_gateway_try w with
  | .ok (w', fx) => ⟨w', fx, none⟩
  | .error (w', fx) => ⟨w', fx ++ [.logError .errorConfiguring], none⟩

/-! ## Uploader -/

/-- Consume one HTTP oracle entry (an exhausted script models a transport
failure). -/
def takeHttp (w : W) : HttpOutcome × W :=
  match w.http with
  | [] => (.reqError, w)
  | h :: t => (h, { w with http := t })

/-- `LoRaManager.send_post_request`: POST the payload; HTTP 200 with a JSON
body logs success, 200 with a non-JSON body logs a warning, any other status
logs an error, and a `RequestException` is caught and logged. -/
def send_post_request (data : UploadPayload) (w : W) : Step Unit :=
  let (h, w1) := takeHttp w
  match h with
  | .resp status bodyIsJson =>
    if status = 200 then
      if bodyIsJson then ⟨(), w1, [.posted data, .logInfo .postSuccess]⟩
      else ⟨(), w1, [.posted data, .logWarning .postNonJsonBody]⟩
    else ⟨(), w1, [.posted data, .logError .postFailedStatus]⟩
  | .reqError => ⟨(), w1, [.posted data, .logError .postException]⟩

/-! ## MessageProcessor -/

/-- The inner `try` block of the `radio_rx` branch: parse the decoded text as
JSON and POST the extracted reading.  `json.loads` failure raises
`JSONDecodeError`; `data.items()` on a non-dict value raises
`AttributeError` (after the "Parsed JSON Data:" info record). -/
def radio_rx_try (readable : List Char) (w : W) : Except (PyExc × W × List Eff) (W × List Eff) :=
  match json_loads readable with
  | none => .error (.jsonDecodeError, w, [])
  | some (.obj fields) =>
    let post_data : UploadPayload :=
      ⟨SENSOR_ID, GATEWAY_ID, jsonGetD fields (pys "TotalActivePower") (.num 0)⟩
    let sp := send_post_request post_data w
    .ok (sp.w, [Eff.logInfo .parsedJsonHeader] ++ fields.map (fun _ => Eff.logInfo .jsonItem) ++ sp.fx)
  | some _ => .error (.attributeError, w, [Eff.logInfo .parsedJsonHeader])

/-- Result of `process_received_message`; `exc` is the exception escaping to
the caller (the receive loop). -/
structure ProcResult where
  w : W
  fx : List Eff
  exc : Except PyExc Unit

/-- `LoRaManager.process_received_message`: dispatch on the message prefix.
`radio_rx` decodes and uploads (JSON decode errors are logged, any other
exception is swallowed by the bare `except Exception: pass`); `radio_err`
triggers a full reconfiguration; `ok` and anything else are only logged. -/
def process_received_message (msg : List Char) (w : W) : ProcResult :=
  if pyStartswith msg (pys "radio_rx") then
    let parts := pySplit msg
    if 2 ≤ parts.length then
      let hex_data := parts.getD 1 []
      let (readable, hexErr) := hex_to_string hex_data
      let fx0 := (if hexErr then [Eff.logError .invalidHex] else []) ++ [Eff.logDebug .receivedPacket]
      match radio_rx_try readable w with
      | .ok (w', fx') => ⟨w', fx0 ++ fx', .ok ()⟩
      | .error (.jsonDecodeError, w', fx') =>
        ⟨w', fx0 ++ fx' ++ [.logError .jsonDecodeFailed], .ok ()⟩
      | .error (_, w', fx') => ⟨w', fx0 ++ fx' ++ [.silentSwallow], .ok ()⟩
    else
      ⟨w, [.logError .badRadioRxFormat], .ok ()⟩
  else if pyStartswith msg (pys "radio_err") then
    let c := configure_gateway w
    ⟨c.w, [.logError .receiveError, .logInfo .reconfiguring] ++ c.fx, .ok ()⟩
  else if pyStartswith msg (pys "ok") then
    ⟨w, [.logDebug .ackMessage], .ok ()⟩
  else
    ⟨w, [.logWarning .unexpectedResponse], .ok ()⟩

/-! ## ReceiveLoop -/

/-- One observation of the listening loop's serial poll: nothing waiting, a
line read, a `KeyboardInterrupt`, or an exception from the channel itself
(`in_waiting` / `readline` raising). -/
inductive PollEvent where
  | idle
  | line (s : List Char)
  | cancel
  | chanFault

/-- Why `listen_for_messages` stopped: the observed script ran out (loop
still running), `KeyboardInterrupt`, or a fault reaching the `try` wrapped
around the whole loop. -/
inductive ExitReason where
  | ranOut
  | cancelled
  | fault
deriving DecidableEq

/-- Result of running the listening loop over a poll script. -/
structure LoopResult where
  w : W
  fx : List Eff
  processed : List (List Char)
  exit : ExitReason

/-- Handling of one nonempty received line inside the loop body: process the
message, then unconditionally re-issue `radio rx 0` with retries (an
exception from processing would propagate out of the loop, `raised`). -/
def listen_handle (m : List Char) (w : W) : Step Unit × Bool :=
  let p := process_received_message m w
  match p.exc with
  | .error _ => (⟨(), p.w, [Eff.logDebug .rawMessage] ++ p.fx⟩, true)
  | .ok _ =>
    let q := send_command_with_retry LORA_RADIO_RX_COMMAND p.w
    (⟨(), q.w, [Eff.logDebug .rawMessage] ++ p.fx ++ q.fx
      ++ (if q.val then [] else [Eff.logError .reissueFailed])⟩, false)

/-- `LoRaManager.listen_for_messages` over a poll script: the `while True`
loop with `try`/`except KeyboardInterrupt`/`except Exception` wrapped
around it (so an exception reaching the loop body's scope terminates the
loop after one error log). -/
def listen_for_messages : List PollEvent → W → LoopResult
  | [], w => ⟨w, [], [], .ranOut⟩
  | .idle :: evs, w =>
    let r := listen_for_messages evs w
    ⟨r.w, Eff.sleptPoll :: r.fx, r.processed, r.exit⟩
  | .cancel :: _, w => ⟨w, [.logInfo .stopping], [], .cancelled⟩
  | .chanFault :: _, w => ⟨w, [.logError .listenError], [], .fault⟩
  | .line s :: evs, w =>
    let m := pyStrip s
    if m.isEmpty then
      let r := listen_for_messages evs w
      ⟨r.w, Eff.sleptPoll :: r.fx, r.processed, r.exit⟩
    else
      let (h, raised) := listen_handle m w
      if raised then
        ⟨h.w, h.fx ++ [.logError .listenError], [m], .fault⟩
      else
        let r := listen_for_messages evs h.w
        ⟨r.w, h.fx ++ [Eff.sleptPoll] ++ r.fx, m :: r.processed, r.exit⟩

/-- Does the event terminate the loop (cancellation or channel fault)? -/
def isTermEvent (e : PollEvent) : Bool :=
  match e with | .cancel => true | .chanFault => true | _ => false

/-- The nonempty stripped lines of a poll script that precede its first
cancellation or channel fault: the messages the loop is expected to process. -/
def scriptMessages (script : List PollEvent) : List (List Char) :=
  (script.takeWhile fun e => !isTermEvent e).filterMap fun e =>
    match e with
    | .line s => if (pyStrip s).isEmpty then none else some (pyStrip s)
    | _ => none

/-- World state after the fire-and-forget reset and MAC-pause sends of
`configure_gateway`. -/
def cfg_after_pause (w : W) : W :=
  (send_command LORA_MAC_PAUSE_COMMAND (send_command LORA_RESET_COMMAND w).w).w

/-- The bandwidth step of `configure_gateway`. -/
def cfg_bw (w : W) : Step Bool :=
  send_command_with_retry LORA_RADIO_BW_COMMAND (cfg_after_pause w)

/-- The coding-rate step of `configure_gateway`. -/
def cfg_cr (w : W) : Step Bool :=
  send_command_with_retry LORA_RADIO_CR_COMMAND (cfg_bw w).w

/-- The power step of `configure_gateway`. -/
def cfg_pwr (w : W) : Step Bool :=
  send_command_with_retry LORA_RADIO_PWR_COMMAND (cfg_cr w).w

/-- The frequency step of `configure_gateway`. -/
def cfg_freq (w : W) : Step Bool :=
  send_command_with_retry LORA_RADIO_FREQ_COMMAND (cfg_pwr w).w

/-- The spreading-factor step of `configure_gateway`. -/
def cfg_sf (w : W) : Step Bool :=
  send_command_with_retry LORA_RADIO_SF_COMMAND (cfg_freq w).w

/-- The receive-mode step of `configure_gateway`. -/
def cfg_rx (w : W) : Step Bool :=
  send_command_with_retry LORA_RADIO_RX_COMMAND (cfg_sf w).w

/-- The effects of the reset and MAC-pause steps of `configure_gateway`. -/
def cfg_pre (w : W) : List Eff :=
  [Eff.logInfo .resetting] ++ (send_command LORA_RESET_COMMAND w).fx
    ++ [Eff.sleptCfg, Eff.logInfo .pausingMac]
    ++ (send_command LORA_MAC_PAUSE_COMMAND (send_command LORA_RESET_COMMAND w).w).fx
    ++ [Eff.sleptCfg]

/-! # Theorems -/

theorem cmdsOf_append (a b : List Eff) : cmdsOf (a ++ b) = cmdsOf a ++ cmdsOf b :=
  List.filterMap_append a b _

theorem cmdsOf_send_command (cmd : List Char) (w : W) :
    cmdsOf (send_command cmd w).fx = [cmd] := by
  unfold send_command takeSerial
  cases hopen : w.ser_open
  · simp [cmdsOf]
  · cases hc : w.chan with
    | nil => simp [cmdsOf]
    | cons r t => cases r <;> simp [cmdsOf]

theorem swrAux_cmds (cmd : List Char) :
    ∀ n w, ∃ k, cmdsOf (swrAux cmd n w).fx = List.replicate k cmd ∧ k ≤ n ∧ (1 ≤ n → 1 ≤ k) := by
  intro n
  induction n with
  | zero => intro w; exact ⟨0, by simp [swrAux, cmdsOf], by omega, by omega⟩
  | succ n ih =>
    intro w
    by_cases hok : (pyLower (send_command cmd w).val == pys "ok") = true
    · refine ⟨1, ?_, by omega, by omega⟩
      simp only [swrAux, hok, if_true]
      rw [cmdsOf_append, cmdsOf_send_command]
      rfl
    · obtain ⟨k, hk, hkn, _⟩ := ih (send_command cmd w).w
      refine ⟨k + 1, ?_, by omega, by omega⟩
      simp only [swrAux, hok, if_false, Bool.false_eq_true, ite_false]
      rw [cmdsOf_append, cmdsOf_append, cmdsOf_send_command, hk, List.replicate_succ]
      rfl

theorem swr_cmd_mem (cmd : List Char) (n : Nat) (w : W) (hn : 1 ≤ n) :
    cmd ∈ cmdsOf (swrAux cmd n w).fx := by
  obtain ⟨k, hk, _, h1⟩ := swrAux_cmds cmd n w
  rw [hk]
  exact List.mem_replicate.mpr ⟨by omega, rfl⟩

theorem swr_cmds_only (cmd c : List Char) (n : Nat) (w : W)
    (h : c ∈ cmdsOf (swrAux cmd n w).fx) : c = cmd := by
  obtain ⟨k, hk, _, _⟩ := swrAux_cmds cmd n w
  rw [hk] at h
  exact List.eq_of_mem_replicate h

theorem sendCount_append (a b : List Eff) :
    sendCount (a ++ b) = sendCount a + sendCount b := by
  simp [sendCount, cmdsOf_append]

theorem retrySleepCount_append (a b : List Eff) :
    retrySleepCount (a ++ b) = retrySleepCount a + retrySleepCount b := by
  simp [retrySleepCount, List.countP_append]

theorem send_command_open (cmd : List Char) (w : W) (h : w.ser_open = true) :
    (send_command cmd w).val = respAt w 0 ∧
    (send_command cmd w).w = ⟨w.ser_open, w.chan.tail, w.http⟩ ∧
    sendCount (send_command cmd w).fx = 1 ∧
    retrySleepCount (send_command cmd w).fx = 0 := by
  obtain ⟨so, ch, ht⟩ := w
  simp only at h
  subst h
  cases ch with
  | nil => refine ⟨rfl, rfl, rfl, rfl⟩
  | cons r t => cases r <;> exact ⟨rfl, rfl, rfl, rfl⟩

theorem respAt_tail (so : Bool) (ch : List SerialResp) (ht : List HttpOutcome) (i : Nat) :
    respAt ⟨so, ch.tail, ht⟩ i = respAt ⟨so, ch, ht⟩ (i + 1) := by
  simp only [respAt, ← List.drop_one, List.drop_drop, Nat.add_comm]

theorem sendCount_failfx : sendCount [Eff.logWarning .attemptFailed, Eff.sleptRetry] = 0 := rfl

theorem retrySleepCount_failfx :
    retrySleepCount [Eff.logWarning .attemptFailed, Eff.sleptRetry] = 1 := rfl

theorem sendCount_ackfx : sendCount [Eff.logDebug .cmdAck] = 0 := rfl

theorem retrySleepCount_ackfx : retrySleepCount [Eff.logDebug .cmdAck] = 0 := rfl

theorem swrAux_fail (cmd : List Char) :
    ∀ n w, w.ser_open = true →
    (∀ i, i < n → pyLower (respAt w i) ≠ pys "ok") →
    (swrAux cmd n w).val = false ∧ sendCount (swrAux cmd n w).fx = n ∧
      retrySleepCount (swrAux cmd n w).fx = n := by
  intro n
  induction n with
  | zero => intro w _ _; exact ⟨rfl, rfl, rfl⟩
  | succ n ih =>
    intro w hopen hresp
    obtain ⟨hval, hw, hsc, hrc⟩ := send_command_open cmd w hopen
    have hok : (pyLower (send_command cmd w).val == pys "ok") = false := by
      rw [beq_eq_false_iff_ne, hval]
      exact hresp 0 (by omega)
    obtain ⟨so, ch, ht⟩ := w
    simp only at hopen
    have hresp' : ∀ i, i < n → pyLower (respAt (send_command cmd ⟨so, ch, ht⟩).w i) ≠ pys "ok" := by
      intro i hi
      rw [hw, respAt_tail]
      exact hresp (i + 1) (by omega)
    obtain ⟨iv, isc, irc⟩ := ih (send_command cmd ⟨so, ch, ht⟩).w (by rw [hw]; exact hopen) hresp'
    refine ⟨?_, ?_, ?_⟩
    · simp only [swrAux, hok, Bool.false_eq_true, if_false]
      exact iv
    · simp only [swrAux, hok, Bool.false_eq_true, if_false]
      rw [sendCount_append, sendCount_append, hsc, isc, sendCount_failfx]
      omega
    · simp only [swrAux, hok, Bool.false_eq_true, if_false]
      rw [retrySleepCount_append, retrySleepCount_append, hrc, irc, retrySleepCount_failfx]
      omega

theorem swrAux_succ (cmd : List Char) :
    ∀ n w, w.ser_open = true → ∀ k, k < n →
    (∀ i, i < k → pyLower (respAt w i) ≠ pys "ok") →
    pyLower (respAt w k) = pys "ok" →
    (swrAux cmd n w).val = true ∧ sendCount (swrAux cmd n w).fx = k + 1 ∧
      retrySleepCount (swrAux cmd n w).fx = k := by
  intro n
  induction n with
  | zero => intro w _ k hk; omega
  | succ n ih =>
    intro w hopen k hk hprev hcurr
    obtain ⟨hval, hw, hsc, hrc⟩ := send_command_open cmd w hopen
    cases k with
    | zero =>
      have hok : (pyLower (send_command cmd w).val == pys "ok") = true := by
        rw [beq_iff_eq, hval]
        exact hcurr
      refine ⟨?_, ?_, ?_⟩
      · simp only [swrAux, hok, if_true]
      · simp only [swrAux, hok, if_true]
        rw [sendCount_append, hsc, sendCount_ackfx]
      · simp only [swrAux, hok, if_true]
        rw [retrySleepCount_append, hrc, retrySleepCount_ackfx]
    | succ k =>
      have hok : (pyLower (send_command cmd w).val == pys "ok") = false := by
        rw [beq_eq_false_iff_ne, hval]
        exact hprev 0 (by omega)
      obtain ⟨so, ch, ht⟩ := w
      simp only at hopen
      have hprev' : ∀ i, i < k → pyLower (respAt (send_command cmd ⟨so, ch, ht⟩).w i) ≠ pys "ok" := by
        intro i hi
        rw [hw, respAt_tail]
        exact hprev (i + 1) (by omega)
      have hcurr' : pyLower (respAt (send_command cmd ⟨so, ch, ht⟩).w k) = pys "ok" := by
        rw [hw, respAt_tail]
        exact hcurr
      obtain ⟨iv, isc, irc⟩ :=
        ih (send_command cmd ⟨so, ch, ht⟩).w (by rw [hw]; exact hopen) k (by omega) hprev' hcurr'
      refine ⟨?_, ?_, ?_⟩
      · simp only [swrAux, hok, Bool.false_eq_true, if_false]
        exact iv
      · simp only [swrAux, hok, Bool.false_eq_true, if_false]
        rw [sendCount_append, sendCount_append, hsc, isc, sendCount_failfx]
        omega
      · simp only [swrAux, hok, Bool.false_eq_true, if_false]
        rw [retrySleepCount_append, retrySleepCount_append, hrc, irc, retrySleepCount_failfx]
        omega

/-- **C4.** `send_command_with_retry` on an open channel: it calls `send`
at most `COMMAND_RETRIES` times; if the `k`-th response (0-based, `k` within
the retry budget) is the first that case-insensitively equals `"ok"`, it
returns `true` after exactly `k + 1` send attempts; if every response within
the budget is non-`"ok"`, it makes exactly `COMMAND_RETRIES` attempts,
returns `false`, and waits the retry delay between consecutive failed
attempts (at least `COMMAND_RETRIES - 1` inter-attempt waits occur). -/
theorem send_command_with_retry_spec (cmd : List Char) (w : W) (hopen : w.ser_open = true) :
    sendCount (send_command_with_retry cmd w).fx ≤ COMMAND_RETRIES ∧
    (∀ k, k < COMMAND_RETRIES → (∀ i, i < k → pyLower (respAt w i) ≠ pys "ok") →
      pyLower (respAt w k) = pys "ok" →
      (send_command_with_retry cmd w).val = true ∧
        sendCount (send_command_with_retry cmd w).fx = k + 1) ∧
    ((∀ i, i < COMMAND_RETRIES → pyLower (respAt w i) ≠ pys "ok") →
      (send_command_with_retry cmd w).val = false ∧
        sendCount (send_command_with_retry cmd w).fx = COMMAND_RETRIES ∧
        COMMAND_RETRIES - 1 ≤ retrySleepCount (send_command_with_retry cmd w).fx) := by
  refine ⟨?_, ?_, ?_⟩
  · obtain ⟨k, hk, hkn, _⟩ := swrAux_cmds cmd COMMAND_RETRIES w
    simp only [send_command_with_retry, sendCount, hk, List.length_replicate]
    exact hkn
  · intro k hk hprev hcurr
    obtain ⟨hv, hs, _⟩ := swrAux_succ cmd COMMAND_RETRIES w hopen k hk hprev hcurr
    exact ⟨hv, hs⟩
  · intro hall
    obtain ⟨hv, hs, hr⟩ := swrAux_fail cmd COMMAND_RETRIES w hopen hall
    exact ⟨hv, hs, by simp only [send_command_with_retry]; rw [hr]; omega⟩

/-- Witness for C4: a channel that immediately answers `"OK"` is acknowledged
in one attempt; a silent channel (all timeouts) exhausts all three attempts
and fails. -/
theorem send_command_with_retry_spec_witness :
    ((send_command_with_retry LORA_RADIO_BW_COMMAND ⟨true, [.line (pys "OK")], []⟩).val = true ∧
      sendCount (send_command_with_retry LORA_RADIO_BW_COMMAND
        ⟨true, [.line (pys "OK")], []⟩).fx = 1) ∧
    (send_command_with_retry LORA_RADIO_CR_COMMAND ⟨true, [], []⟩).val = false := by
  constructor
  · exact (send_command_with_retry_spec LORA_RADIO_BW_COMMAND ⟨true, [.line (pys "OK")], []⟩
      rfl).2.1 0 (by decide) (fun i hi => absurd hi (by omega)) (by decide)
  · exact ((send_command_with_retry_spec LORA_RADIO_CR_COMMAND ⟨true, [], []⟩
      rfl).2.2 (by decide)).1

theorem process_exc_ok (msg : List Char) (w : W) :
    (process_received_message msg w).exc = .ok () := by
  unfold process_received_message
  dsimp only
  repeat' split
  all_goals rfl

theorem errorTags_append (a b : List Eff) :
    errorTags (a ++ b) = errorTags a ++ errorTags b :=
  List.filterMap_append a b _

theorem cmdsOf_cfg_pre (w : W) : cmdsOf (cfg_pre w) = [LORA_RESET_COMMAND, LORA_MAC_PAUSE_COMMAND] := by
  simp only [cfg_pre, cmdsOf_append, cmdsOf_send_command]
  rfl

theorem cmdsOf_ite_log (b : Bool) (t1 t2 : LogTag) :
    cmdsOf [if b then Eff.logInfo t1 else Eff.logError t2] = [] := by
  cases b <;> rfl

theorem configure_gateway_raised_none (w : W) : (configure_gateway w).raised = none := by
  unfold configure_gateway
  cases h : configure_gateway_try w with
  | ok a => obtain ⟨w', fx⟩ := a; simp [h]
  | error a => obtain ⟨w', fx⟩ := a; simp [h]

theorem cfg_try_bwfail (w : W) (hb : (cfg_bw w).val = false) :
    configure_gateway_try w = .error ((cfg_bw w).w, cfg_pre w ++ (cfg_bw w).fx) := by
  simp only [cfg_bw, cfg_after_pause] at hb
  simp [configure_gateway_try, cfg_pre, cfg_bw, cfg_after_pause, hb]

theorem cfg_try_crfail (w : W) (hb : (cfg_bw w).val = true) (hc : (cfg_cr w).val = false) :
    configure_gateway_try w = .error ((cfg_cr w).w, cfg_pre w ++ (cfg_bw w).fx ++ (cfg_cr w).fx) := by
  simp only [cfg_bw, cfg_after_pause] at hb
  simp only [cfg_cr, cfg_bw, cfg_after_pause] at hc
  simp [configure_gateway_try, cfg_pre, cfg_cr, cfg_bw, cfg_after_pause, hb, hc]

theorem cfg_try_pwrfail (w : W) (hb : (cfg_bw w).val = true) (hc : (cfg_cr w).val = true)
    (hp : (cfg_pwr w).val = false) :
    configure_gateway_try w
      = .error ((cfg_pwr w).w, cfg_pre w ++ (cfg_bw w).fx ++ (cfg_cr w).fx ++ (cfg_pwr w).fx) := by
  simp only [cfg_bw, cfg_after_pause] at hb
  simp only [cfg_cr, cfg_bw, cfg_after_pause] at hc
  simp only [cfg_pwr, cfg_cr, cfg_bw, cfg_after_pause] at hp
  simp [configure_gateway_try, cfg_pre, cfg_pwr, cfg_cr, cfg_bw, cfg_after_pause, hb, hc, hp]

theorem cfg_try_ok (w : W) (hb : (cfg_bw w).val = true) (hc : (cfg_cr w).val = true)
    (hp : (cfg_pwr w).val = true) :
    configure_gateway_try w = .ok ((cfg_rx w).w,
      cfg_pre w ++ (cfg_bw w).fx ++ (cfg_cr w).fx ++ (cfg_pwr w).fx
      ++ ([Eff.logInfo .settingFreq] ++ (cfg_freq w).fx
          ++ [if (cfg_freq w).val then Eff.logInfo .freqOk else Eff.logError .freqFailed])
      ++ ([Eff.logInfo .settingSf] ++ (cfg_sf w).fx
          ++ [if (cfg_sf w).val then Eff.logInfo .sfOk else Eff.logError .sfFailed])
      ++ ([Eff.logInfo .settingRx] ++ (cfg_rx w).fx
          ++ [if (cfg_rx w).val then Eff.logInfo .rxOk else Eff.logError .rxFailed])) := by
  simp only [cfg_bw, cfg_after_pause] at hb
  simp only [cfg_cr, cfg_bw, cfg_after_pause] at hc
  simp only [cfg_pwr, cfg_cr, cfg_bw, cfg_after_pause] at hp
  simp [configure_gateway_try, cfg_pre, cfg_rx, cfg_sf, cfg_freq, cfg_pwr, cfg_cr, cfg_bw,
    cfg_after_pause, hb, hc, hp]

set_option maxHeartbeats 4000000 in
/-- **C1 (amended).** If any of the bandwidth, coding-rate or power commands
exhausts its retries, `configure_gateway` never attempts the frequency,
spreading-factor or receive-mode commands and logs an overall
"Error configuring gateway" record, but the raised abort exception is caught
inside the method itself: it returns normally with no failure indication to
its caller (`raised = none`).  If the prerequisites succeed and only the
frequency command exhausts its retries, the spreading-factor and receive-mode
commands are still attempted. -/
theorem configure_gateway_failure_policy (w : W) :
    (((cfg_bw w).val = false ∨ ((cfg_bw w).val = true ∧ (cfg_cr w).val = false) ∨
        ((cfg_bw w).val = true ∧ (cfg_cr w).val = true ∧ (cfg_pwr w).val = false)) →
      LORA_RADIO_FREQ_COMMAND ∉ cmdsOf (configure_gateway w).fx ∧
      LORA_RADIO_SF_COMMAND ∉ cmdsOf (configure_gateway w).fx ∧
      LORA_RADIO_RX_COMMAND ∉ cmdsOf (configure_gateway w).fx ∧
      LogTag.errorConfiguring ∈ errorTags (configure_gateway w).fx ∧
      (configure_gateway w).raised = none) ∧
    ((cfg_bw w).val = true → (cfg_cr w).val = true → (cfg_pwr w).val = true →
      (cfg_freq w).val = false →
      LORA_RADIO_SF_COMMAND ∈ cmdsOf (configure_gateway w).fx ∧
      LORA_RADIO_RX_COMMAND ∈ cmdsOf (configure_gateway w).fx) := by
  constructor
  · intro habort
    have hnot : ∀ c : List Char, c ≠ LORA_RESET_COMMAND → c ≠ LORA_MAC_PAUSE_COMMAND →
        c ≠ LORA_RADIO_BW_COMMAND → c ≠ LORA_RADIO_CR_COMMAND → c ≠ LORA_RADIO_PWR_COMMAND →
        c ∉ cmdsOf (configure_gateway w).fx := by
      rcases habort with hb | ⟨hb, hc⟩ | ⟨hb, hc, hp⟩
      · have hfx : (configure_gateway w).fx
            = (cfg_pre w ++ (cfg_bw w).fx) ++ [Eff.logError .errorConfiguring] := by
          simp [configure_gateway, cfg_try_bwfail w hb]
        intro c h1 h2 h3 _ _ hmem
        rw [hfx, cmdsOf_append, cmdsOf_append, cmdsOf_cfg_pre] at hmem
        rcases List.mem_append.mp hmem with hA | hB
        · rcases List.mem_append.mp hA with h0 | hbw
          · simp only [List.mem_cons, List.not_mem_nil, or_false] at h0
            rcases h0 with h0 | h0
            · exact h1 h0
            · exact h2 h0
          · exact h3 (swr_cmds_only _ _ _ _ hbw)
        · simp [cmdsOf] at hB
      · have hfx : (configure_gateway w).fx
            = (cfg_pre w ++ (cfg_bw w).fx ++ (cfg_cr w).fx) ++ [Eff.logError .errorConfiguring] := by
          simp [configure_gateway, cfg_try_crfail w hb hc]
        intro c h1 h2 h3 h4 _ hmem
        rw [hfx, cmdsOf_append, cmdsOf_append, cmdsOf_append, cmdsOf_cfg_pre] at hmem
        rcases List.mem_append.mp hmem with hA | hB
        · rcases List.mem_append.mp hA with hA' | hcr
          · rcases List.mem_append.mp hA' with h0 | hbw
            · simp only [List.mem_cons, List.not_mem_nil, or_false] at h0
              rcases h0 with h0 | h0
              · exact h1 h0
              · exact h2 h0
            · exact h3 (swr_cmds_only _ _ _ _ hbw)
          · exact h4 (swr_cmds_only _ _ _ _ hcr)
        · simp [cmdsOf] at hB
      · have hfx : (configure_gateway w).fx
            = (cfg_pre w ++ (cfg_bw w).fx ++ (cfg_cr w).fx ++ (cfg_pwr w).fx)
              ++ [Eff.logError .errorConfiguring] := by
          simp [configure_gateway, cfg_try_pwrfail w hb hc hp]
        intro c h1 h2 h3 h4 h5 hmem
        rw [hfx, cmdsOf_append, cmdsOf_append, cmdsOf_append, cmdsOf_append,
          cmdsOf_cfg_pre] at hmem
        rcases List.mem_append.mp hmem with hA | hB
        · rcases List.mem_append.mp hA with hA' | hpw
          · rcases List.mem_append.mp hA' with hA'' | hcr
            · rcases List.mem_append.mp hA'' with h0 | hbw
              · simp only [List.mem_cons, List.not_mem_nil, or_false] at h0
                rcases h0 with h0 | h0
                · exact h1 h0
                · exact h2 h0
              · exact h3 (swr_cmds_only _ _ _ _ hbw)
            · exact h4 (swr_cmds_only _ _ _ _ hcr)
          · exact h5 (swr_cmds_only _ _ _ _ hpw)
        · simp [cmdsOf] at hB
    have herr : LogTag.errorConfiguring ∈ errorTags (configure_gateway w).fx := by
      rcases habort with hb | ⟨hb, hc⟩ | ⟨hb, hc, hp⟩
      · have hfx : (configure_gateway w).fx
            = (cfg_pre w ++ (cfg_bw w).fx) ++ [Eff.logError .errorConfiguring] := by
          simp [configure_gateway, cfg_try_bwfail w hb]
        rw [hfx, errorTags_append]
        simp [errorTags]
      · have hfx : (configure_gateway w).fx
            = (cfg_pre w ++ (cfg_bw w).fx ++ (cfg_cr w).fx) ++ [Eff.logError .errorConfiguring] := by
          simp [configure_gateway, cfg_try_crfail w hb hc]
        rw [hfx, errorTags_append]
        simp [errorTags]
      · have hfx : (configure_gateway w).fx
            = (cfg_pre w ++ (cfg_bw w).fx ++ (cfg_cr w).fx ++ (cfg_pwr w).fx)
              ++ [Eff.logError .errorConfiguring] := by
          simp [configure_gateway, cfg_try_pwrfail w hb hc hp]
        rw [hfx, errorTags_append]
        simp [errorTags]
    exact ⟨hnot _ (by decide) (by decide) (by decide) (by decide) (by decide),
      hnot _ (by decide) (by decide) (by decide) (by decide) (by decide),
      hnot _ (by decide) (by decide) (by decide) (by decide) (by decide),
      herr, configure_gateway_raised_none w⟩
  · intro hb hc hp _
    have htry := cfg_try_ok w hb hc hp
    have hsf : LORA_RADIO_SF_COMMAND ∈ cmdsOf (cfg_sf w).fx :=
      swr_cmd_mem LORA_RADIO_SF_COMMAND COMMAND_RETRIES (cfg_freq w).w (by decide)
    have hrx : LORA_RADIO_RX_COMMAND ∈ cmdsOf (cfg_rx w).fx :=
      swr_cmd_mem LORA_RADIO_RX_COMMAND COMMAND_RETRIES (cfg_sf w).w (by decide)
    constructor
    · unfold configure_gateway
      rw [htry]
      dsimp only
      simp only [cmdsOf_append, List.mem_append]
      exact Or.inl (Or.inr (Or.inl (Or.inr hsf)))
    · unfold configure_gateway
      rw [htry]
      dsimp only
      simp only [cmdsOf_append, List.mem_append]
      exact Or.inr (Or.inl (Or.inr hrx))

theorem listen_handle_snd (m : List Char) (w : W) : (listen_handle m w).2 = false := by
  simp [listen_handle, process_exc_ok]

theorem scriptMessages_idle (evs : List PollEvent) :
    scriptMessages (.idle :: evs) = scriptMessages evs := by
  simp [scriptMessages, isTermEvent]

theorem scriptMessages_cancel (evs : List PollEvent) :
    scriptMessages (.cancel :: evs) = [] := by
  simp [scriptMessages, isTermEvent]

theorem scriptMessages_fault (evs : List PollEvent) :
    scriptMessages (.chanFault :: evs) = [] := by
  simp [scriptMessages, isTermEvent]

theorem scriptMessages_line (s : List Char) (evs : List PollEvent) :
    scriptMessages (.line s :: evs)
      = if (pyStrip s).isEmpty then scriptMessages evs else pyStrip s :: scriptMessages evs := by
  by_cases hm : (pyStrip s).isEmpty
  · have hm' : pyStrip s = [] := by simpa using hm
    simp [scriptMessages, isTermEvent, List.filterMap_cons, hm, hm']
  · have hm' : ¬ pyStrip s = [] := by simpa using hm
    simp [scriptMessages, isTermEvent, List.filterMap_cons, hm, hm']

/-- Behaviour of the receive loop over any poll script: it processes exactly
the nonempty lines preceding the first cancellation or channel-level fault
(so handling a message — whatever its content — never stops the loop), and
it is still running at the end of the script if and only if the script
contains no cancellation and no channel-level fault. -/
theorem listen_loop_characterization (script : List PollEvent) (w : W) :
    (listen_for_messages script w).processed = scriptMessages script ∧
    ((listen_for_messages script w).exit = .ranOut ↔ ∀ e ∈ script, isTermEvent e = false) := by
  induction script generalizing w with
  | nil => simp [listen_for_messages, scriptMessages]
  | cons e evs ih =>
    cases e with
    | idle =>
      have h := ih w
      refine ⟨?_, ?_⟩
      · simp [listen_for_messages, scriptMessages_idle, h.1]
      · simp [listen_for_messages, isTermEvent, h.2]
    | cancel =>
      refine ⟨?_, ?_⟩
      · simp [listen_for_messages, scriptMessages_cancel]
      · simp [listen_for_messages, isTermEvent]
    | chanFault =>
      refine ⟨?_, ?_⟩
      · simp [listen_for_messages, scriptMessages_fault]
      · simp [listen_for_messages, isTermEvent]
    | line s =>
      by_cases hm : (pyStrip s).isEmpty
      · have h := ih w
        refine ⟨?_, ?_⟩
        · simp [listen_for_messages, hm, scriptMessages_line, h.1]
        · simp [listen_for_messages, hm, isTermEvent, h.2]
      · rcases hlh : listen_handle (pyStrip s) w with ⟨hstep, raised⟩
        have hr : raised = false := by
          have h2 := listen_handle_snd (pyStrip s) w
          rw [hlh] at h2
          exact h2
        subst hr
        have h := ih hstep.w
        refine ⟨?_, ?_⟩
        · simp [listen_for_messages, hm, hlh, scriptMessages_line, h.1]
        · simp [listen_for_messages, hm, hlh, isTermEvent, h.2]

/-- **C2 (amended).** The receive loop never terminates because of a
processing error: every fault raised while handling a message inside the
loop body is caught within the body (never reaching the loop's own
handler), the loop processes exactly the nonempty lines preceding the
first cancellation or channel-level fault and is still running at the end
of the script if and only if no such event occurred — so it exits only on
cancellation or a channel-level fault.  However, such a fault is not always
logged: there are runs (a `radio_rx` payload parsing as non-object JSON)
where the fault is silently swallowed with no log record at all. -/
theorem listen_loop_processing_faults (script : List PollEvent) (w : W) :
    ((listen_for_messages script w).processed = scriptMessages script ∧
      ((listen_for_messages script w).exit = .ranOut ↔ ∀ e ∈ script, isTermEvent e = false)) ∧
    (∀ m wb, (listen_handle m wb).2 = false) ∧
    (∃ m wb, hasSwallow (process_received_message m wb).fx = true ∧
      errorTags (process_received_message m wb).fx = [] ∧
      (process_received_message m wb).fx.countP
        (fun e => match e with | Eff.logWarning _ => true | _ => false) = 0) :=
  ⟨listen_loop_characterization script w,
    fun m wb => listen_handle_snd m wb,
    ⟨pys "radio_rx 3432", ⟨true, [], []⟩, by decide⟩⟩

/-- **C2, counterexample to the claim as stated.**  A fault raised while
handling a message inside the loop body is not always logged: for the line
`radio_rx 3432` (payload `"42"`, valid non-object JSON) the `AttributeError`
from `data.items()` is swallowed by the bare `except Exception: pass`, and —
with a channel that acknowledges the receive-mode re-issue — the entire
loop iteration contains a swallowed fault, not a single error- or
warning-level log record, and the loop keeps running. -/
theorem listen_loop_fault_unlogged :
    hasSwallow (listen_for_messages [.line (pys "radio_rx 3432")]
      ⟨true, [.line (pys "ok")], []⟩).fx = true ∧
    errorTags (listen_for_messages [.line (pys "radio_rx 3432")]
      ⟨true, [.line (pys "ok")], []⟩).fx = [] ∧
    (listen_for_messages [.line (pys "radio_rx 3432")]
      ⟨true, [.line (pys "ok")], []⟩).fx.countP
        (fun e => match e with | Eff.logWarning _ => true | _ => false) = 0 ∧
    (listen_for_messages [.line (pys "radio_rx 3432")]
      ⟨true, [.line (pys "ok")], []⟩).processed = [pys "radio_rx 3432"] ∧
    (listen_for_messages [.line (pys "radio_rx 3432")]
      ⟨true, [.line (pys "ok")], []⟩).exit = .ranOut := by
  decide

/-- **C3.** After every message handled by the receive loop (whatever its
kind), the loop re-issues the receive-mode command `radio rx 0` via
`send_command_with_retry` before the next poll iteration: the iteration's
trace is the message-processing effects followed by a block that contains a
`radio rx 0` send, followed by the end-of-iteration sleep. -/
theorem reissue_rx_after_every_message (s : List Char) (evs : List PollEvent) (w : W)
    (h : (pyStrip s).isEmpty = false) :
    ∃ fx2 rest,
      (listen_for_messages (.line s :: evs) w).fx
        = [Eff.logDebug .rawMessage] ++ (process_received_message (pyStrip s) w).fx
          ++ fx2 ++ [Eff.sleptPoll] ++ rest ∧
      LORA_RADIO_RX_COMMAND ∈ cmdsOf fx2 := by
  refine ⟨(send_command_with_retry LORA_RADIO_RX_COMMAND
      (process_received_message (pyStrip s) w).w).fx
    ++ (if (send_command_with_retry LORA_RADIO_RX_COMMAND
        (process_received_message (pyStrip s) w).w).val then []
      else [Eff.logError .reissueFailed]),
    (listen_for_messages evs (send_command_with_retry LORA_RADIO_RX_COMMAND
      (process_received_message (pyStrip s) w).w).w).fx, ?_, ?_⟩
  · simp [listen_for_messages, h, listen_handle, process_exc_ok, List.append_assoc]
  · rw [cmdsOf_append]
    exact List.mem_append.mpr (Or.inl (swr_cmd_mem _ _ _ (by decide)))

/-- Witness for C3 at a concrete received line (`"ok"`, an acknowledgment):
the re-issue happens even for messages that carried no data. -/
theorem reissue_rx_after_every_message_witness :
    ∃ fx2 rest,
      (listen_for_messages [.line (pys "ok")] ⟨true, [], []⟩).fx
        = [Eff.logDebug .rawMessage]
          ++ (process_received_message (pyStrip (pys "ok")) ⟨true, [], []⟩).fx
          ++ fx2 ++ [Eff.sleptPoll] ++ rest ∧
      LORA_RADIO_RX_COMMAND ∈ cmdsOf fx2 :=
  reissue_rx_after_every_message (pys "ok") [] ⟨true, [], []⟩ (by decide)

/-- **C10.** `process_received_message` is total at its public interface:
for every input message and world state it returns normally — no exception
escapes to the receive loop, and the loop's handler therefore never sees a
raised flag. -/
theorem process_received_message_total (msg : List Char) (w : W) :
    (process_received_message msg w).exc = Except.ok () ∧ (listen_handle msg w).2 = false :=
  ⟨process_exc_ok msg w, listen_handle_snd msg w⟩

/-- Witness for C1: on a dead channel (all timeouts) the bandwidth step
fails, the final three commands are never attempted, and nothing is reported
to the caller; on a channel that acknowledges only through the power step,
frequency fails but spreading factor and receive mode are still attempted. -/
theorem configure_gateway_failure_policy_witness :
    (LORA_RADIO_FREQ_COMMAND ∉ cmdsOf (configure_gateway ⟨true, [], []⟩).fx ∧
      LORA_RADIO_SF_COMMAND ∉ cmdsOf (configure_gateway ⟨true, [], []⟩).fx ∧
      LORA_RADIO_RX_COMMAND ∉ cmdsOf (configure_gateway ⟨true, [], []⟩).fx ∧
      LogTag.errorConfiguring ∈ errorTags (configure_gateway ⟨true, [], []⟩).fx ∧
      (configure_gateway ⟨true, [], []⟩).raised = none) ∧
    (LORA_RADIO_SF_COMMAND ∈ cmdsOf (configure_gateway
        ⟨true, [.line (pys "x"), .line (pys "x"), .line (pys "ok"), .line (pys "ok"),
          .line (pys "ok")], []⟩).fx ∧
      LORA_RADIO_RX_COMMAND ∈ cmdsOf (configure_gateway
        ⟨true, [.line (pys "x"), .line (pys "x"), .line (pys "ok"), .line (pys "ok"),
          .line (pys "ok")], []⟩).fx) := by
  constructor
  · exact (configure_gateway_failure_policy ⟨true, [], []⟩).1 (Or.inl (by decide))
  · exact (configure_gateway_failure_policy
      ⟨true, [.line (pys "x"), .line (pys "x"), .line (pys "ok"), .line (pys "ok"),
        .line (pys "ok")], []⟩).2 (by decide) (by decide) (by decide) (by decide)

/-- **C1, counterexample to the claim as stated.**  On a dead channel the
bandwidth command exhausts its retries and the sequence aborts before the
frequency command, yet `configure_gateway` reports nothing to its caller:
its caller-visible outcome (no return value, no escaping exception) is
identical to that of a fully successful run. -/
theorem configure_gateway_no_failure_report :
    (cfg_bw ⟨true, [], []⟩).val = false ∧
    LORA_RADIO_FREQ_COMMAND ∉ cmdsOf (configure_gateway ⟨true, [], []⟩).fx ∧
    (configure_gateway ⟨true, [], []⟩).raised = none ∧
    (configure_gateway ⟨true, List.replicate 8 (SerialResp.line (pys "ok")), []⟩).raised = none ∧
    LORA_RADIO_RX_COMMAND ∈ cmdsOf (configure_gateway
      ⟨true, List.replicate 8 (SerialResp.line (pys "ok")), []⟩).fx ∧
    (configure_gateway ⟨true, [], []⟩).raised
      = (configure_gateway ⟨true, List.replicate 8 (SerialResp.line (pys "ok")), []⟩).raised := by
  decide

/-! ## C5: telemetry extraction and upload -/

theorem postsOf_append (a b : List Eff) : postsOf (a ++ b) = postsOf a ++ postsOf b :=
  List.filterMap_append a b _

theorem postsOf_send_post_request (d : UploadPayload) (w : W) :
    postsOf (send_post_request d w).fx = [d] := by
  unfold send_post_request takeHttp
  cases w.http with
  | nil => rfl
  | cons h t =>
    cases h with
    | resp st bj => cases bj <;> (dsimp only; split <;> rfl)
    | reqError => rfl

theorem postsOf_nil : postsOf [] = [] := rfl

theorem postsOf_logError (t : LogTag) (l : List Eff) :
    postsOf (Eff.logError t :: l) = postsOf l := rfl

theorem postsOf_logDebug (t : LogTag) (l : List Eff) :
    postsOf (Eff.logDebug t :: l) = postsOf l := rfl

theorem postsOf_logInfo (t : LogTag) (l : List Eff) :
    postsOf (Eff.logInfo t :: l) = postsOf l := rfl

theorem postsOf_items (fields : List (List Char × Json)) :
    postsOf (fields.map fun _ => Eff.logInfo .jsonItem) = [] := by
  induction fields with
  | nil => rfl
  | cons a t ih => exact ih

theorem postsOf_replicate (n : Nat) :
    postsOf (List.replicate n (Eff.logInfo .jsonItem)) = [] := by
  induction n with
  | zero => rfl
  | succ n ih => exact ih

/-- **C5.** For every `radio_rx` message whose second whitespace-separated
token hex-decodes to a string that parses as a JSON object, the processor
hands the Uploader exactly one payload, whose `sensor_id` and `gateway_id`
are the configured identifiers and whose `data_kwh` is the object's
`TotalActivePower` field, defaulting to `0.0` when the field is absent. -/
theorem radio_rx_upload (msg : List Char) (w : W) (fields : List (List Char × Json))
    (h1 : pyStartswith msg (pys "radio_rx") = true)
    (h2 : 2 ≤ (pySplit msg).length)
    (h3 : json_loads (hex_to_string ((pySplit msg).getD 1 [])).1 = some (.obj fields)) :
    postsOf (process_received_message msg w).fx
      = [⟨SENSOR_ID, GATEWAY_ID, jsonGetD fields (pys "TotalActivePower") (.num 0)⟩] := by
  rcases hhex : hex_to_string ((pySplit msg).getD 1 []) with ⟨readable, hexErr⟩
  have h3' : json_loads readable = some (.obj fields) := by rw [hhex] at h3; exact h3
  unfold process_received_message
  simp only [h1, eq_self_iff_true, if_true]
  rw [if_pos h2]
  try dsimp only
  rw [hhex]
  try dsimp only
  unfold radio_rx_try
  rw [h3']
  try dsimp only
  cases hexErr <;>
    simp [postsOf_append, postsOf_send_post_request, postsOf_items, postsOf_replicate,
      postsOf_nil, postsOf_logError, postsOf_logDebug, postsOf_logInfo]

/-- Witness for C5: the hex encoding of `{"TotalActivePower": 42.5}` produces
an upload of 42.5 kWh tagged with the configured sensor and gateway ids. -/
theorem radio_rx_upload_witness :
    postsOf (process_received_message
        (pys "radio_rx 7B22546F74616C416374697665506F776572223A2034322E357D")
        ⟨true, [], [.resp 200 true]⟩).fx
      = [⟨SENSOR_ID, GATEWAY_ID,
          jsonGetD [(pys "TotalActivePower", Json.num (mkRat 85 2))]
            (pys "TotalActivePower") (.num 0)⟩] :=
  radio_rx_upload
    (pys "radio_rx 7B22546F74616C416374697665506F776572223A2034322E357D")
    ⟨true, [], [.resp 200 true]⟩
    [(pys "TotalActivePower", Json.num (mkRat 85 2))]
    (by decide) (by decide) (by rfl)

/-! ## C6, C7, C8: the hex codec -/

theorem format02X_eq : ∀ n, n < 256 → format02X n = [hexDig (n / 16), hexDig (n % 16)] := by
  decide

theorem hexpair_facts : ∀ n, n < 256 →
    (hexDig (n / 16) = ' ') = False ∧ isHexDig (hexDig (n / 16)) = true ∧
    isHexDig (hexDig (n % 16)) = true ∧
    hexVal (hexDig (n / 16)) * 16 + hexVal (hexDig (n % 16)) = n := by
  decide

theorem bytesFromHex_hexpair (n : Nat) (hn : n < 256) (t : List Char) :
    bytesFromHex (format02X n ++ t) = (bytesFromHex t).map (fun bs => n :: bs) := by
  obtain ⟨hsp, hx1, hx2, hval⟩ := hexpair_facts n hn
  rw [format02X_eq n hn]
  simp only [List.cons_append, List.nil_append, bytesFromHex, hsp, if_false, hx1, hx2,
    Bool.and_self, if_true, hval]
  rfl

theorem bytesFromHex_string_to_hex (s : List Char) (h : ∀ c ∈ s, c.toNat < 256) :
    bytesFromHex (string_to_hex s) = some (s.map Char.toNat) := by
  induction s with
  | nil => rfl
  | cons c t ih =>
    have hc : c.toNat < 256 := h c (List.mem_cons_self c t)
    have ht := ih (fun x hx => h x (List.mem_cons_of_mem c hx))
    have hcons : string_to_hex (c :: t) = format02X c.toNat ++ string_to_hex t := by
      simp [string_to_hex]
    rw [hcons, bytesFromHex_hexpair c.toNat hc, ht]
    rfl

theorem utf8_ascii (bs : List Nat) (h : ∀ b ∈ bs, b < 128) :
    utf8DecodeIgnoreAux bs.length bs = bs := by
  induction bs with
  | nil => rfl
  | cons b t ih =>
    have hb : b < 128 := h b (List.mem_cons_self b t)
    have ht := ih (fun x hx => h x (List.mem_cons_of_mem b hx))
    simp only [List.length_cons, utf8DecodeIgnoreAux, hb, if_true, ht]

/-- **C6.** Codec round trip: for every printable-ASCII string `s`,
`hex_to_string (string_to_hex s)` succeeds (no decode error is logged) and
returns `s` itself. -/
theorem codec_roundtrip (s : List Char) (h : ∀ c ∈ s, 32 ≤ c.toNat ∧ c.toNat ≤ 126) :
    hex_to_string (string_to_hex s) = (s, false) := by
  have h256 : ∀ c ∈ s, c.toNat < 256 := fun c hc => by have := h c hc; omega
  have h128 : ∀ b ∈ s.map Char.toNat, b < 128 := by
    intro b hb
    rcases List.mem_map.mp hb with ⟨c, hc, rfl⟩
    have := h c hc
    omega
  unfold hex_to_string
  rw [bytesFromHex_string_to_hex s h256]
  show ((utf8DecodeIgnore (s.map Char.toNat)).map Char.ofNat, false) = (s, false)
  rw [utf8DecodeIgnore, utf8_ascii _ h128, List.map_map]
  simp [Function.comp_def]

/-- Witness for C6 at the printable-ASCII string `"Hello"`. -/
theorem codec_roundtrip_witness : hex_to_string (string_to_hex (pys "Hello")) = (pys "Hello", false) :=
  codec_roundtrip (pys "Hello") (by decide)

theorem bytesFromHex_none :
    ∀ h : List Char, (∀ c ∈ h, c ≠ ' ') →
    (Odd h.length ∨ ∃ c ∈ h, isHexDig c = false) → bytesFromHex h = none := by
  intro h
  induction h using bytesFromHex.induct with
  | case1 =>
    intro _ hbad
    rcases hbad with hodd | ⟨c, hc, _⟩
    · exact absurd hodd (by decide)
    · exact absurd hc (List.not_mem_nil c)
  | case2 t1 ih =>
    intro hns _
    exact absurd rfl (hns ' ' (List.mem_cons_self _ _))
  | case3 c1 hc1 c2 t hx ih =>
    intro hns hbad
    have ht : bytesFromHex t = none := by
      refine ih (fun c hc => hns c (List.mem_cons_of_mem _ (List.mem_cons_of_mem _ hc))) ?_
      rcases hbad with hodd | ⟨c, hc, hcx⟩
      · left
        rw [Nat.odd_iff] at hodd ⊢
        simp only [List.length_cons] at hodd
        omega
      · right
        rcases List.mem_cons.mp hc with rfl | hc2
        · rw [(Bool.and_eq_true _ _).mp hx |>.1] at hcx
          exact absurd hcx (by decide)
        · rcases List.mem_cons.mp hc2 with rfl | hc3
          · rw [(Bool.and_eq_true _ _).mp hx |>.2] at hcx
            exact absurd hcx (by decide)
          · exact ⟨c, hc3, hcx⟩
    simp only [bytesFromHex, if_neg hc1, hx, if_true, ht, Option.map_none']
  | case4 c1 hc1 c2 t hx =>
    intro _ _
    simp only [bytesFromHex, if_neg hc1, hx, Bool.false_eq_true, if_false]
  | case5 c1 hc1 =>
    intro _ _
    simp only [bytesFromHex, if_neg hc1]

/-- **C7 (amended).** On malformed hex — odd length or a non-hex-digit
character (spaces, which `bytes.fromhex` tolerates, excluded) —
`hex_to_string` takes the `ValueError` path: it logs an invalid-hex error
and returns the empty string, never a partial decode.  (By
`hex_to_string_failure_indistinguishable`, that empty string coincides with
successful decodes, so the failure is signalled only by the log record, not
by the returned value.) -/
theorem hex_to_string_malformed (h : List Char) (hns : ∀ c ∈ h, c ≠ ' ')
    (hbad : Odd h.length ∨ ∃ c ∈ h, isHexDig c = false) :
    hex_to_string h = ([], true) := by
  unfold hex_to_string
  rw [bytesFromHex_none h hns hbad]

/-- Witness for C7 at the malformed hex string `"4G"`. -/
theorem hex_to_string_malformed_witness : hex_to_string (pys "4G") = ([], true) :=
  hex_to_string_malformed (pys "4G") (by decide) (Or.inr (by decide))

/-- **C7, counterexample to the claim as stated.**  The decode failure is an
empty string plus a log record — not a value distinguishable from every
successful decode: `hex_to_string "ZZ"` (malformed) returns the same string
as `hex_to_string ""` (a successful decode of the empty input). -/
theorem hex_to_string_failure_indistinguishable :
    bytesFromHex (pys "ZZ") = none ∧
    hex_to_string (pys "ZZ") = ([], true) ∧
    bytesFromHex [] = some [] ∧
    hex_to_string [] = ([], false) ∧
    (hex_to_string (pys "ZZ")).1 = (hex_to_string []).1 := by
  decide

theorem format02X_digits : ∀ n, n < 256 → ∀ d ∈ format02X n, d ∈ pys "0123456789ABCDEF" := by
  decide

/-- **C8 (amended).** For every string whose characters' code points are at
most 255, `string_to_hex` maps each character to its 2-digit uppercase
hexadecimal code and concatenates them: the output length is exactly twice
the input length and every output character is an uppercase hex digit.
(For code points above 255, `format(ord(c), '02X')` produces more than two
digits — see `string_to_hex_length_not_double`.) -/
theorem string_to_hex_latin1 (s : List Char) (h : ∀ c ∈ s, c.toNat < 256) :
    (string_to_hex s).length = 2 * s.length ∧
    ∀ d ∈ string_to_hex s, d ∈ pys "0123456789ABCDEF" := by
  induction s with
  | nil => exact ⟨rfl, fun d hd => absurd hd (List.not_mem_nil d)⟩
  | cons c t ih =>
    have hc : c.toNat < 256 := h c (List.mem_cons_self c t)
    obtain ⟨hl, hd⟩ := ih (fun x hx => h x (List.mem_cons_of_mem c hx))
    have hcons : string_to_hex (c :: t) = format02X c.toNat ++ string_to_hex t := by
      simp [string_to_hex]
    constructor
    · rw [hcons, List.length_append, format02X_eq c.toNat hc, hl]
      simp only [List.length_cons, List.length_nil, List.length_singleton]
      omega
    · intro d hdm
      rw [hcons] at hdm
      rcases List.mem_append.mp hdm with hm1 | hm2
      · exact format02X_digits c.toNat hc d hm1
      · exact hd d hm2

/-- Witness for C8 at the string `"Hello"`. -/
theorem string_to_hex_latin1_witness :
    (string_to_hex (pys "Hello")).length = 2 * (pys "Hello").length ∧
    ∀ d ∈ string_to_hex (pys "Hello"), d ∈ pys "0123456789ABCDEF" :=
  string_to_hex_latin1 (pys "Hello") (by decide)

/-- **C8, counterexample to the claim as stated.**  For `'Ā'` (code point
256), `format(ord(c), '02X')` yields three digits, so the output length is
not twice the input length. -/
theorem string_to_hex_length_not_double :
    (string_to_hex [Char.ofNat 256]).length = 3 ∧
    ¬((string_to_hex [Char.ofNat 256]).length = 2 * ([Char.ofNat 256] : List Char).length) := by
  decide

/-! ## C9: silent swallowing -/

theorem hasSwallow_append (a b : List Eff) :
    hasSwallow (a ++ b) = (hasSwallow a || hasSwallow b) := by
  simp [hasSwallow]

theorem noswallow_send (cmd : List Char) (w : W) :
    hasSwallow (send_command cmd w).fx = false := by
  unfold send_command takeSerial
  cases hopen : w.ser_open
  · rfl
  · cases hc : w.chan with
    | nil => rfl
    | cons r t => cases r <;> rfl

theorem noswallow_swrAux (cmd : List Char) :
    ∀ n w, hasSwallow (swrAux cmd n w).fx = false := by
  intro n
  induction n with
  | zero => intro w; rfl
  | succ n ih =>
    intro w
    by_cases hok : (pyLower (send_command cmd w).val == pys "ok") = true
    · simp only [swrAux, hok, if_true]
      rw [hasSwallow_append, noswallow_send]
      rfl
    · simp only [swrAux, hok, Bool.false_eq_true, if_false]
      rw [hasSwallow_append, hasSwallow_append, noswallow_send, ih]
      rfl

theorem noswallow_swr (cmd : List Char) (w : W) :
    hasSwallow (send_command_with_retry cmd w).fx = false :=
  noswallow_swrAux cmd COMMAND_RETRIES w

theorem hasSwallow_ite_log (b : Bool) (t1 t2 : LogTag) :
    hasSwallow [if b then Eff.logInfo t1 else Eff.logError t2] = false := by
  cases b <;> rfl

theorem noswallow_configure (w : W) : hasSwallow (configure_gateway w).fx = false := by
  have hpre : hasSwallow (cfg_pre w) = false := by
    simp only [cfg_pre, hasSwallow_append, noswallow_send, Bool.or_false, Bool.false_or]
    rfl
  have hbw : hasSwallow (cfg_bw w).fx = false := noswallow_swr _ _
  have hcr : hasSwallow (cfg_cr w).fx = false := noswallow_swr _ _
  have hpw : hasSwallow (cfg_pwr w).fx = false := noswallow_swr _ _
  have hfr : hasSwallow (cfg_freq w).fx = false := noswallow_swr _ _
  have hsf : hasSwallow (cfg_sf w).fx = false := noswallow_swr _ _
  have hrx : hasSwallow (cfg_rx w).fx = false := noswallow_swr _ _
  by_cases hb : (cfg_bw w).val = false
  · unfold configure_gateway
    rw [cfg_try_bwfail w hb]
    try dsimp only
    simp only [hasSwallow_append, hpre, hbw, Bool.or_false, Bool.false_or]
    rfl
  · have hbt : (cfg_bw w).val = true := by revert hb; cases (cfg_bw w).val <;> simp
    by_cases hc : (cfg_cr w).val = false
    · unfold configure_gateway
      rw [cfg_try_crfail w hbt hc]
      try dsimp only
      simp only [hasSwallow_append, hpre, hbw, hcr, Bool.or_false, Bool.false_or]
      rfl
    · have hct : (cfg_cr w).val = true := by revert hc; cases (cfg_cr w).val <;> simp
      by_cases hp : (cfg_pwr w).val = false
      · unfold configure_gateway
        rw [cfg_try_pwrfail w hbt hct hp]
        try dsimp only
        simp only [hasSwallow_append, hpre, hbw, hcr, hpw, Bool.or_false, Bool.false_or]
        rfl
      · have hpt : (cfg_pwr w).val = true := by revert hp; cases (cfg_pwr w).val <;> simp
        unfold configure_gateway
        rw [cfg_try_ok w hbt hct hpt]
        try dsimp only
        simp only [hasSwallow_append, hpre, hbw, hcr, hpw, hfr, hsf, hrx,
          hasSwallow_ite_log, Bool.or_false, Bool.false_or]
        rfl

theorem noswallow_spr (d : UploadPayload) (w : W) :
    hasSwallow (send_post_request d w).fx = false := by
  unfold send_post_request takeHttp
  cases w.http with
  | nil => rfl
  | cons h t =>
    cases h with
    | resp st bj => cases bj <;> (dsimp only; split <;> rfl)
    | reqError => rfl

theorem hasSwallow_replicate (n : Nat) :
    hasSwallow (List.replicate n (Eff.logInfo .jsonItem)) = false := by
  induction n with
  | zero => rfl
  | succ n ih => exact ih

theorem hasSwallow_items (fields : List (List Char × Json)) :
    hasSwallow (fields.map fun _ => Eff.logInfo .jsonItem) = false := by
  induction fields with
  | nil => rfl
  | cons a t ih => exact ih

/-- **C9, counterexample to the claim as stated.**  A `radio_rx` message
whose payload hex-decodes to valid JSON that is not an object (here `"42"`,
hex `3432`) raises an `AttributeError` at `data.items()`, which the bare
`except Exception: pass` swallows: the run contains a swallowed error and
not a single error- or warning-level log record. -/
theorem silent_swallow_occurs :
    hasSwallow (process_received_message (pys "radio_rx 3432") ⟨true, [], []⟩).fx = true ∧
    errorTags (process_received_message (pys "radio_rx 3432") ⟨true, [], []⟩).fx = [] ∧
    (process_received_message (pys "radio_rx 3432") ⟨true, [], []⟩).fx.countP
        (fun e => match e with | Eff.logWarning _ => true | _ => false) = 0 := by
  decide

/-- **C9 (amended).** Every error in the message pipeline produces a log
record before being dropped, with exactly one exception: in the `radio_rx`
handler, an exception raised after a successful JSON parse (i.e. when the
decoded payload is valid JSON but not an object) is silently swallowed by
the bare `except Exception: pass`, with no log record.  Formally, a run of
`process_received_message` contains a silently swallowed error if and only
if the message is a well-formed `radio_rx` whose payload parses as
non-object JSON. -/
theorem silent_swallow_iff (msg : List Char) (w : W) :
    hasSwallow (process_received_message msg w).fx = true ↔
      (pyStartswith msg (pys "radio_rx") = true ∧ 2 ≤ (pySplit msg).length ∧
        ∃ j, json_loads (hex_to_string ((pySplit msg).getD 1 [])).1 = some j ∧
          j.isObj = false) := by
  by_cases h1 : pyStartswith msg (pys "radio_rx") = true
  · by_cases h2 : 2 ≤ (pySplit msg).length
    · rcases hhex : hex_to_string ((pySplit msg).getD 1 []) with ⟨readable, hexErr⟩
      unfold process_received_message
      rw [if_pos h1, if_pos h2]
      try dsimp only
      rw [hhex]
      try dsimp only
      unfold radio_rx_try
      cases hj : json_loads readable with
      | none =>
        try dsimp only
        constructor
        · intro habs
          exfalso
          revert habs
          cases hexErr <;> decide
        · rintro ⟨-, -, j', hj', -⟩
          exact Option.noConfusion hj'
      | some j =>
        cases j with
        | obj fields =>
          try dsimp only
          constructor
          · intro habs
            exfalso
            revert habs
            simp only [hasSwallow_append, noswallow_spr, hasSwallow_items]
            cases hexErr <;> decide
          · rintro ⟨-, -, j', hj', hobj⟩
            obtain rfl : Json.obj fields = j' := Option.some.inj hj'
            simp [Json.isObj] at hobj
        | null =>
          try dsimp only
          constructor
          · intro _
            exact ⟨h1, h2, Json.null, rfl, rfl⟩
          · intro _
            cases hexErr <;> decide
        | bool b =>
          try dsimp only
          constructor
          · intro _
            exact ⟨h1, h2, Json.bool b, rfl, rfl⟩
          · intro _
            cases hexErr <;> decide
        | num q =>
          try dsimp only
          constructor
          · intro _
            exact ⟨h1, h2, Json.num q, rfl, rfl⟩
          · intro _
            cases hexErr <;> decide
        | str sv =>
          try dsimp only
          constructor
          · intro _
            exact ⟨h1, h2, Json.str sv, rfl, rfl⟩
          · intro _
            cases hexErr <;> decide
        | arr xs =>
          try dsimp only
          constructor
          · intro _
            exact ⟨h1, h2, Json.arr xs, rfl, rfl⟩
          · intro _
            cases hexErr <;> decide
    · unfold process_received_message
      rw [if_pos h1, if_neg h2]
      constructor
      · intro habs
        exfalso
        revert habs
        try dsimp only
        decide
      · rintro ⟨-, habs, -⟩
        exact absurd habs h2
  · unfold process_received_message
    rw [if_neg h1]
    by_cases h1e : pyStartswith msg (pys "radio_err") = true
    · rw [if_pos h1e]
      try dsimp only
      constructor
      · intro habs
        exfalso
        revert habs
        rw [hasSwallow_append, noswallow_configure]
        decide
      · rintro ⟨habs, -⟩
        exact absurd habs h1
    · rw [if_neg h1e]
      by_cases h1o : pyStartswith msg (pys "ok") = true
      · rw [if_pos h1o]
        constructor
        · intro habs
          exfalso
          revert habs
          try dsimp only
          decide
        · rintro ⟨habs, -⟩
          exact absurd habs h1
      · rw [if_neg h1o]
        constructor
        · intro habs
          exfalso
          revert habs
          try dsimp only
          decide
        · rintro ⟨habs, -⟩
          exact absurd habs h1

end CPFGateway
